import Mathlib

/-!
Verification of the ShadowGuard detection/scoring/redaction pipeline.

Shallow embedding of:
- `src/phi_redactor.py` (regex fallback redaction, Ollama LLM redaction),
- `src/shadowguard_addon.py` (risk scoring, severity bucketing, body
  normalization),
- `src/backend/vapi_caller.py` (escalation governor, cooldown, call record
  lifecycle).

Python strings are modelled as `String`/`List Char`; machine integers as
`Int`/`Nat` (no overflow is possible on the modelled code paths: scores
are clamped to 0..100 and lengths stay small); Python exceptions as an
`Except` monad; fallible external I/O (LLM endpoint, voice-call provider)
as explicit outcome parameters.  All definitions are computable so that
concrete claims can be settled by kernel evaluation.
-/

namespace ShadowGuard

/-! ## Basic string helpers mirroring Python primitives -/

/-- Python `text.find(pat)` restricted to the found/not-found distinction:
the first index at which `pat` occurs in `s` (`none` when absent, where
Python returns -1). -/
def strFind : List Char → List Char → Option Nat
  | [], pat => if pat.isPrefixOf ([] : List Char) then some 0 else none
  | c :: rest, pat =>
    if pat.isPrefixOf (c :: rest) then some 0
    else (strFind rest pat).map (· + 1)

/-- `strContains s pat` is Python `pat in s`. -/
def strContains (s pat : List Char) : Bool :=
  (strFind s pat).isSome

/-- Recursion core of `replaceAll`.  The fuel argument only bounds the
recursion (structurally, so the kernel can evaluate it); every step
consumes at least one character, so the initial fuel `s.length + 1` is
never exhausted. -/
def replaceAllAux (pat rep : List Char) : Nat → List Char → List Char
  | 0, s => s
  | _ + 1, [] => []
  | fuel + 1, c :: rest =>
    if !pat.isEmpty && pat.isPrefixOf (c :: rest) then
      rep ++ replaceAllAux pat rep fuel ((c :: rest).drop pat.length)
    else
      c :: replaceAllAux pat rep fuel rest

/-- Python `s.replace(pat, rep)`: replace every non-overlapping occurrence
of `pat` in `s` left-to-right.  The embedded callers guarantee a nonempty
`pat` (the source filters out empty entity texts before replacing). -/
def replaceAll (s pat rep : List Char) : List Char :=
  replaceAllAux pat rep (s.length + 1) s

/-- Python `s.lower()` (ASCII; the vocabulary in the source is ASCII). -/
def lowerStr (s : String) : List Char := s.toList.map Char.toLower

/-- Python slice `t[a:b]` (with the clamping semantics of slicing). -/
def sliceStr (t : String) (a b : Nat) : String :=
  String.mk ((t.toList.drop a).take (b - a))

/-! ## Severity bucketing (`ShadowGuard._post_event`, shadowguard_addon.py
lines 269-275) -/

/-- The severity expression of `_post_event`:
`"critical" if score > 70 else "high" if score > 50 else "medium" if
score > 30 else "low" if score > 10 else "clean"`. -/
def severity_of_score (score : Int) : String :=
  if score > 70 then "critical"
  else if score > 50 then "high"
  else if score > 30 then "medium"
  else if score > 10 then "low"
  else "clean"

/-! ## Risk scoring (`score_risk` and helpers, shadowguard_addon.py
lines 72-175 and 367-371) -/

/-- `MEDICAL_KEYWORDS` (shadowguard_addon.py lines 72-97). -/
def MEDICAL_KEYWORDS : List String :=
  ["patient", "diagnosis", "prescribed", "medication", "discharge",
   "admission", "lab results", "radiology", "MRI", "CT scan",
   "blood pressure", "heart rate", "allergies", "surgery", "prognosis",
   "treatment plan", "medical record", "clinical notes", "HIPAA", "PHI",
   "EHR", "ICD", "CPT", "vital signs"]

/-- `count_medical_keywords` (lines 115-118):
`sum(1 for kw in MEDICAL_KEYWORDS if kw.lower() in text_lower)` — the
number of keywords of the fixed list occurring (case-insensitively, as a
substring) in the text; each keyword contributes at most 1 no matter how
often it occurs. -/
def count_medical_keywords (text : String) : Nat :=
  MEDICAL_KEYWORDS.countP (fun kw => strContains (lowerStr text) (lowerStr kw))

/-- PHI term of `score_risk` (lines 134-139): when the body matched at
least one PHI pattern category, `min(len(phi)*15, 45)`, else 0.  `nPhi` is
the number of distinct categories `detect_phi` found. -/
def phiBoost (nPhi : Nat) : Nat := if 0 < nPhi then min (nPhi * 15) 45 else 0

/-- Medical-keyword term of `score_risk` (lines 142-146). -/
def medBoost (medCount : Nat) : Nat :=
  if 3 ≤ medCount then min (medCount * 3) 15 else 0

/-- Payload-size term of `score_risk` (lines 149-155). -/
def sizeBoost (bodyLen : Nat) : Nat :=
  if 10000 < bodyLen then 15 else if 3000 < bodyLen then 8 else 0

/-- Method term of `score_risk` (lines 158-160). -/
def methodBoost (method : String) : Nat :=
  if method == "POST" || method == "PUT" || method == "PATCH" then 5 else 0

/-- Off-hours term of `score_risk` (lines 163-166); `hour` is the local
hour of day. -/
def timeBoost (hour : Nat) : Nat := if hour < 6 || 22 < hour then 5 else 0

/-- `score_risk` (lines 121-175), with the body-derived quantities
abstracted as arguments: `nPhi` is the number of distinct PHI pattern
categories `detect_phi` finds in the body, `medCount` is
`count_medical_keywords(body)`, `bodyLen` is `len(body)`.  The base term
+15 is unconditional and the total is clamped by `min(score, 100)`
(line 169). -/
def score_risk (nPhi medCount bodyLen : Nat) (method : String) (hour : Nat) : Nat :=
  min (15 + phiBoost nPhi + medBoost medCount + sizeBoost bodyLen +
    methodBoost method + timeBoost hour) 100

/-- Presidio boost applied in `ShadowGuard.request` (lines 367-371):
`min(risk_score + len(entity_types_found) * 12, 100)`. -/
def boost_score (score : Nat) (nEntityTypes : Nat) : Nat :=
  min (score + nEntityTypes * 12) 100

/-- Modelled from the claim wording of C7, for comparison with
`count_medical_keywords`: the total number of case-insensitive
*occurrences* of keywords of the fixed list in the body (every matching
start position counted). -/
def claimMedicalOccurrenceCount (text : String) : Nat :=
  (MEDICAL_KEYWORDS.map (fun kw =>
    (List.range ((lowerStr text).length + 1)).countP
      (fun i => (lowerStr kw).isPrefixOf ((lowerStr text).drop i)))).sum

/-! ## Findings and detection results (phi_redactor.py data model) -/

/-- One finding dict as built by the detection strategies.  The Python key
named end is a Lean keyword and is rendered `stop`. -/
structure Finding where
  entity_type : String
  text : String
  start : Nat
  stop : Nat
  score : ℚ
deriving DecidableEq

/-- The result dict returned by the detection strategies.  Python
`list(set(...))` for `entity_types_found` has unspecified order; it is
modelled as a duplicate-free list of the types occurring in the
findings. -/
structure DetectionResult where
  redacted_text : String
  findings : List Finding
  phi_detected : Bool
  phi_count : Nat
  entity_types_found : List String
  engine : String
deriving DecidableEq

/-! ## Ollama LLM strategy (`ollama_redact`, phi_redactor.py lines
215-347) -/

/-- `REDACTION_MAP` (lines 230-242). -/
def REDACTION_MAP : List (String × String) :=
  [("PERSON", "[REDACTED_NAME]"), ("US_SSN", "[REDACTED_SSN]"),
   ("PHONE_NUMBER", "[REDACTED_PHONE]"), ("EMAIL_ADDRESS", "[REDACTED_EMAIL]"),
   ("DATE_OF_BIRTH", "[REDACTED_DOB]"), ("MEDICAL_RECORD_NUMBER", "[REDACTED_MRN]"),
   ("DIAGNOSIS_CODE", "[REDACTED_DX]"), ("MEDICATION", "[REDACTED_MED]"),
   ("ADDRESS", "[REDACTED_ADDRESS]"), ("DATE_TIME", "[REDACTED_DATE]"),
   ("LOCATION", "[REDACTED_LOCATION]")]

/-- One entity record of the parsed LLM response, with the source field
defaults already applied (`ent.get("entity_type", "UNKNOWN")`,
`ent.get("text", "")`); non-dict list entries are skipped by the source
(lines 315-316) and do not reach this point. -/
structure OEntity where
  entity_type : String
  text : String

/-- Outcome of the LLM round trip, abstracting the network and the JSON
parsing of the response. -/
inductive LlmOutcome where
  /-- `URLError`/`OSError`/`json.JSONDecodeError` raised by the HTTP
  request (lines 274-283). -/
  | transportFail
  /-- the response field does not parse as JSON (lines 297-306). -/
  | badJson
  /-- the parsed JSON is not a list; the source then continues with an
  empty entity list (lines 294-296). -/
  | notAList
  /-- the parsed JSON list of entity records. -/
  | entities (l : List OEntity)

/-- Insert into a list sorted by descending text length, before the first
strictly shorter element; the fold below is then a stable sort, matching
the Python stable `valid_entities.sort(key=lambda x: len(x[1]),
reverse=True)` (line 322). -/
def insertByLenDesc (x : String × String) :
    List (String × String) → List (String × String)
  | [] => [x]
  | y :: ys =>
    if y.2.length ≤ x.2.length then x :: y :: ys
    else y :: insertByLenDesc x ys

/-- Stable sort by descending entity-text length. -/
def sortByLenDesc (l : List (String × String)) : List (String × String) :=
  l.foldr insertByLenDesc []

/-- The early empty result of `ollama_redact` (lines 276-283 and
299-306). -/
def emptyOllamaResult (text : String) : DetectionResult :=
  { redacted_text := text, findings := [], phi_detected := false,
    phi_count := 0, entity_types_found := [], engine := "ollama" }

/-- Main path of `ollama_redact` (lines 308-347): keep entities whose text
is nonempty and occurs verbatim in the input, sort them by descending
length, then for each one record a finding at `text.find(ent_text)` and
apply `redacted.replace(ent_text, replacement)` — a literal-text global
replacement over the running redacted string. -/
def ollamaApply (text : String) (ents : List OEntity) : DetectionResult :=
  let valid := ents.filterMap (fun e =>
    if e.text ≠ "" ∧ strContains text.toList e.text.toList = true then
      some (e.entity_type, e.text)
    else none)
  let sorted := sortByLenDesc valid
  let step := fun (acc : List Finding × List Char) (p : String × String) =>
    match strFind text.toList p.2.toList with
    | none => acc
    | some st =>
      (acc.1 ++ [⟨p.1, p.2, st, st + p.2.length, 0.90⟩],
       replaceAll acc.2 p.2.toList
         ((REDACTION_MAP.lookup p.1).getD "[REDACTED]").toList)
  let r := sorted.foldl step ([], text.toList)
  { redacted_text := String.mk r.2
    findings := r.1
    phi_detected := decide (0 < r.1.length)
    phi_count := r.1.length
    entity_types_found := (r.1.map (fun f => f.entity_type)).dedup
    engine := "ollama" }

/-- `ollama_redact` (lines 255-347) as a function of the input text and
the abstracted LLM outcome. -/
def ollama_redact (text : String) : LlmOutcome → DetectionResult
  | .transportFail => emptyOllamaResult text
  | .badJson => emptyOllamaResult text
  | .notAList => ollamaApply text []
  | .entities l => ollamaApply text l

/-! ## Escalation governor (`backend/vapi_caller.py`) -/

/-- The VAPI environment configuration (vapi_caller.py lines 21-26).
Python truthiness of a string is nonemptiness. -/
structure EscConfig where
  enabled : Bool
  apiKey : String
  phoneNumberId : String
  assistantId : String
  alertPhone : String
  cooldownSeconds : Int

/-- `is_configured` (lines 31-39). -/
def is_configured (c : EscConfig) : Bool :=
  c.enabled && !c.apiKey.isEmpty && !c.phoneNumberId.isEmpty &&
    !c.assistantId.isEmpty && !c.alertPhone.isEmpty

/-- One row of the `vapi_calls` table as this core reads and writes it;
`id` is the serial primary key, `created_at` the insertion time in
seconds. -/
structure CallRec where
  id : Nat
  source_ip : String
  created_at : Int
  status : String
  call_id : Option String
  error_message : Option String
deriving DecidableEq

/-- `_check_cooldown` (lines 42-50): true iff some record for this source
has `created_at > now - CALL_COOLDOWN_SECONDS`. -/
def check_cooldown (cd : Int) (recs : List CallRec) (ip : String)
    (now : Int) : Bool :=
  recs.any (fun r => r.source_ip == ip && decide (now - cd < r.created_at))

/-- The event fields read by `maybe_trigger_call` and `_make_vapi_call`. -/
structure EscEvent where
  severity : String
  risk_score : Int
  source_ip : String

/-- Outcome of the provider HTTP round trip inside `_make_vapi_call`. -/
inductive CallOutcome where
  | success (callId : String)
  | httpError (code : Nat) (body : String)
  | urlError (msg : String)

/-- `_make_vapi_call` (lines 64-153) under the sequential-evaluation
assumption of the spec: insert a record with status initiated (fresh
serial id), then resolve the call attempt.  On success the record is
updated to status queued with the provider call id (lines 115-123).  On
`URLError` it is updated to status failed with the error text truncated to
500 characters (lines 146-153).  On `HTTPError` the source builds the same
truncated message but only logs it; no update statement runs (lines
138-145). -/
def make_vapi_call (recs : List CallRec) (e : EscEvent) (now : Int)
    (outcome : CallOutcome) : List CallRec :=
  let rid := recs.length
  let inserted := recs ++ [⟨rid, e.source_ip, now, "initiated", none, none⟩]
  match outcome with
  | .success cid =>
    inserted.map (fun r =>
      if r.id == rid then { r with status := "queued", call_id := some cid }
      else r)
  | .httpError _ _ => inserted
  | .urlError msg =>
    let trunc := String.mk (msg.toList.take 500)
    inserted.map (fun r =>
      if r.id == rid then { r with status := "failed", error_message := some trunc }
      else r)

/-- The decision taken for one event by the escalation governor. -/
inductive EscStep where
  | notConfigured
  | notEligible
  | suppressed
  | dispatched
deriving DecidableEq

/-- The eligibility test of `maybe_trigger_call` (lines 164-167): proceed
iff severity is critical or high and `risk_score` is at least 70. -/
def eligibleEvent (e : EscEvent) : Bool :=
  (e.severity == "critical" || e.severity == "high") &&
    decide (70 ≤ e.risk_score)

/-- `maybe_trigger_call` (lines 156-180) composed, under sequential
evaluation, with the background `_make_vapi_call` it dispatches: check
configuration, then eligibility, then cooldown, then dispatch the call. -/
def process_event (cfg : EscConfig) (e : EscEvent) (now : Int)
    (outcome : CallOutcome) (recs : List CallRec) : EscStep × List CallRec :=
  if !is_configured cfg then (.notConfigured, recs)
  else if !eligibleEvent e then (.notEligible, recs)
  else if check_cooldown cfg.cooldownSeconds recs e.source_ip now then
    (.suppressed, recs)
  else (.dispatched, make_vapi_call recs e now outcome)

/-! ## Body normalizer (`ShadowGuard.request`, shadowguard_addon.py lines
318-353) -/

/-- A parsed JSON value (the output of `json.loads`). -/
inductive JVal where
  | jnull
  | jbool (b : Bool)
  | jnum (n : Int)
  | jstr (s : String)
  | jarr (elems : List JVal)
  | jobj (fields : List (String × JVal))

/-- The Python exceptions the normalizer block can raise.  The except
clause of the source (line 352) catches `json.JSONDecodeError` and
`TypeError` only. -/
inductive PyErr where
  | typeError
  | attributeError
  | keyError
deriving DecidableEq

/-- Python `key in v` for a parsed JSON value: dict → key membership,
list → element equality against the string, str → substring test; `in` on
a number, boolean or None raises `TypeError`. -/
def pyContains (key : String) : JVal → Except PyErr Bool
  | .jobj fields => .ok (fields.any (fun f => f.1 == key))
  | .jarr elems => .ok (elems.any (fun v => match v with
      | .jstr s => s == key
      | _ => false))
  | .jstr s => .ok (strContains s.toList key.toList)
  | _ => .error .typeError

/-- Python `v[key]` with a string key: dict lookup (`KeyError` when
absent); on a list, string, number, boolean or None it raises
`TypeError`. -/
def pySubscript (v : JVal) (key : String) : Except PyErr JVal :=
  match v with
  | .jobj fields =>
    match fields.lookup key with
    | some x => .ok x
    | none => .error .keyError
  | _ => .error .typeError

/-- Python `for x in v`: a list iterates its elements, a string its
characters (as 1-character strings), a dict its keys; a number, boolean or
None raises `TypeError`. -/
def pyIter : JVal → Except PyErr (List JVal)
  | .jarr elems => .ok elems
  | .jstr s => .ok (s.toList.map (fun c => .jstr (String.mk [c])))
  | .jobj fields => .ok (fields.map (fun f => .jstr f.1))
  | _ => .error .typeError

/-- Python `m.get(key, dflt)`: only dicts have a get method — on any other
value the attribute access raises `AttributeError`, which the except
clause of the normalizer does not catch. -/
def pyGet (m : JVal) (key : String) (dflt : JVal) : Except PyErr JVal :=
  match m with
  | .jobj fields => .ok ((fields.lookup key).getD dflt)
  | _ => .error .attributeError

/-- The shape-extraction block of `ShadowGuard.request` (lines 324-351),
run on the parsed JSON value: (a) the conversational format with `action`
plus `messages` whose contents carry nested `parts`; (b) the flat
role/content `messages` list; (c) the single `prompt` field.  Returns the
value assigned to `readable_body`, or the Python exception the block
raises. -/
def extractShapes (parsed : JVal) (raw : String) : Except PyErr JVal := do
  let hasAction ← pyContains "action" parsed
  let hasMessages ← pyContains "messages" parsed
  if hasAction && hasMessages then
    let msgs ← pySubscript parsed "messages"
    let items ← pyIter msgs
    let parts ← items.foldlM (fun (acc : List String) m => do
      let content ← pyGet m "content" (.jobj [])
      match content with
      | .jobj cfields =>
        if cfields.any (fun f => f.1 == "parts") then do
          let ps ← pySubscript content "parts"
          let pitems ← pyIter ps
          return acc ++ pitems.filterMap (fun p => match p with
            | .jstr s => some s
            | _ => none)
        else
          return acc
      | .jstr s => return acc ++ [s]
      | _ => return acc) []
    if parts.length > 0 then
      return .jstr (String.intercalate "\n" parts)
    else
      return .jstr raw
  else if hasMessages then
    let msgs ← pySubscript parsed "messages"
    let items ← pyIter msgs
    let contents ← items.foldlM (fun (acc : List String) m => do
      let c ← pyGet m "content" .jnull
      match c with
      | .jstr s => return acc ++ [s]
      | _ => return acc) []
    return .jstr (String.intercalate "\n" contents)
  else do
    let hasPrompt ← pyContains "prompt" parsed
    if hasPrompt then
      pySubscript parsed "prompt"
    else
      return .jstr raw

/-- The body-normalizer block of `ShadowGuard.request` (lines 318-353):
`readable_body = raw_body`, then the shape extraction inside a try block
whose except clause catches `json.JSONDecodeError` and `TypeError`.  A
`none` parse result models `json.loads` raising `JSONDecodeError`.
`TypeError` is caught and yields the raw text; any other exception —
notably `AttributeError` from calling get on a non-dict message element —
propagates out of the normalizer. -/
def normalize_body (raw : String) (parsed? : Option JVal) : Except PyErr JVal :=
  match parsed? with
  | none => .ok (.jstr raw)
  | some v =>
    match extractShapes v raw with
    | .ok r => .ok r
    | .error .typeError => .ok (.jstr raw)
    | .error e => .error e

/-! ## Regex engine for the pattern strategy (`regex_redact`,
phi_redactor.py lines 158-208)

The seven patterns of `REGEX_PATTERNS` are transcribed into a small regex
AST; `reMatch` is a continuation-passing backtracking matcher with the
leftmost, greedy-first semantics of the Python `re` module.  All patterns
are applied with `re.IGNORECASE`, so literal characters compare
case-insensitively and the letter classes written as A-Z or a-z in the
source match any ASCII letter.  The fuel arguments only bound the
recursion structurally so the kernel can evaluate; they are chosen large
enough never to be exhausted on the inputs used. -/

/-- Regex AST: empty word, single-character class, concatenation,
alternation (preferring the left branch), greedy Kleene star, and the
word-boundary assertion. -/
inductive RE where
  | eps
  | pred (p : Char → Bool)
  | seq (a b : RE)
  | alt (a b : RE)
  | star (r : RE)
  | wb

/-- Python word character (ASCII): letters, digits, underscore. -/
def isWordChar (c : Char) : Bool := c.isAlphanum || c == '_'

/-- Word-boundary test at position `i` of `s`. -/
def wordBoundary (s : List Char) (i : Nat) : Bool :=
  let before := match i with
    | 0 => false
    | j + 1 => ((s.get? j).map isWordChar).getD false
  let after := ((s.get? i).map isWordChar).getD false
  before != after

/-- Backtracking matcher: `reMatch fuel re s i k` tries to match `re` in
`s` starting at position `i` and calls the continuation `k` on the end
position of each candidate match in greedy-first order, returning the
first success.  The star requires progress of its body, as the Python
engine does, so it cannot loop. -/
def reMatch : Nat → RE → List Char → Nat → (Nat → Option Nat) → Option Nat
  | 0, _, _, _, _ => none
  | _ + 1, .eps, _, i, k => k i
  | _ + 1, .pred p, s, i, k =>
    match s.get? i with
    | some c => if p c then k (i + 1) else none
    | none => none
  | fuel + 1, .seq a b, s, i, k =>
    reMatch fuel a s i (fun j => reMatch fuel b s j k)
  | fuel + 1, .alt a b, s, i, k =>
    (reMatch fuel a s i k).orElse (fun _ => reMatch fuel b s i k)
  | fuel + 1, .star r, s, i, k =>
    (reMatch fuel r s i (fun j =>
      if i < j then reMatch fuel (.star r) s j k else none)).orElse
      (fun _ => k i)
  | _ + 1, .wb, s, i, k => if wordBoundary s i then k i else none

/-- Fuel for `reMatch`: bounds only the recursion depth, far above what
the embedded patterns can use on the inputs evaluated here. -/
def FUEL : Nat := 2000

/-- `re.finditer` scan: try a match at each position left to right,
resuming after the end of every (non-empty) match. -/
def findIterAux (re : RE) (s : List Char) : Nat → Nat → List (Nat × Nat)
  | 0, _ => []
  | fuel + 1, i =>
    if s.length < i then []
    else
      match reMatch FUEL re s i some with
      | some j =>
        if i < j then (i, j) :: findIterAux re s fuel j
        else (i, j) :: findIterAux re s fuel (i + 1)
      | none => findIterAux re s fuel (i + 1)

/-- All matches of `re` in `s`, as half-open position spans. -/
def findIter (re : RE) (s : List Char) : List (Nat × Nat) :=
  findIterAux re s (s.length + 1) 0

/-- Splice the replacement string over every span (ascending,
non-overlapping), as `re.sub` with a constant replacement does on the
spans found by `re.finditer`. -/
def substSpansAux (s rep : List Char) : Nat → List (Nat × Nat) → List Char
  | cur, [] => s.drop cur
  | cur, (a, b) :: rest =>
    ((s.drop cur).take (a - cur)) ++ rep ++ substSpansAux s rep b rest

/-- A literal character under `re.IGNORECASE`. -/
def reChar (c : Char) : RE := .pred (fun d => d.toLower == c.toLower)

/-- A literal word under `re.IGNORECASE`. -/
def reStr (w : String) : RE := w.toList.foldr (fun c r => .seq (reChar c) r) .eps

/-- Concatenation of a pattern list. -/
def reSeqL (l : List RE) : RE := l.foldr .seq .eps

/-- Exactly `n` repetitions. -/
def reRepExact (r : RE) : Nat → RE
  | 0 => .eps
  | n + 1 => .seq r (reRepExact r n)

/-- Up to `n` repetitions, greedy (each optional copy prefers matching). -/
def reOptUpTo (r : RE) : Nat → RE
  | 0 => .eps
  | n + 1 => .alt (.seq r (reOptUpTo r n)) .eps

/-- Bounded repetition, `m` to `n` copies, greedy. -/
def reRep (r : RE) (m n : Nat) : RE := .seq (reRepExact r m) (reOptUpTo r (n - m))

/-- One or more repetitions, greedy. -/
def rePlus (r : RE) : RE := .seq r (.star r)

/-- At least `m` repetitions, greedy. -/
def reAtLeast (r : RE) (m : Nat) : RE := .seq (reRepExact r m) (.star r)

/-- Digit class (ASCII). -/
def reDigit : RE := .pred Char.isDigit

/-- Python whitespace class (ASCII). -/
def isSpaceChar (c : Char) : Bool :=
  c == ' ' || c == '\t' || c == '\n' || c == '\r' || c == '\x0b' || c == '\x0c'

/-- Whitespace class as a pattern. -/
def reSpace : RE := .pred isSpaceChar

/-- Letter class: A-Z together with a-z, which under `re.IGNORECASE` is
what each of the two source classes matches. -/
def reLetter : RE := .pred Char.isAlpha

/-- SSN pattern: word boundary, three digits, dash, two digits, dash,
four digits, word boundary. -/
def ssnRE : RE :=
  reSeqL [.wb, reRepExact reDigit 3, reChar '-', reRepExact reDigit 2,
    reChar '-', reRepExact reDigit 4, .wb]

/-- MRN pattern: word boundary, the word MRN, any run of whitespace,
colon or hash, then at least five digits, word boundary. -/
def mrnRE : RE :=
  reSeqL [.wb, reStr "MRN",
    .star (.pred (fun c => isSpaceChar c || c == ':' || c == '#')),
    reAtLeast reDigit 5, .wb]

/-- DOB pattern: word boundary, DOB or date-of-birth with optional
whitespace, a run of whitespace or colons, one or two digits, slash or
dash, one or two digits, slash or dash, two to four digits, word
boundary. -/
def dobRE : RE :=
  reSeqL [.wb,
    .alt (reStr "DOB")
      (reSeqL [reStr "date", .star reSpace, reStr "of", .star reSpace,
        reStr "birth"]),
    .star (.pred (fun c => isSpaceChar c || c == ':')),
    reRep reDigit 1 2, .pred (fun c => c == '/' || c == '-'),
    reRep reDigit 1 2, .pred (fun c => c == '/' || c == '-'),
    reRep reDigit 2 4, .wb]

/-- Separator class of the phone pattern: dash, dot or closing paren. -/
def phoneSep : RE := .pred (fun c => c == '-' || c == '.' || c == ')')

/-- Phone pattern: word boundary, three digits, separator, optional
whitespace, three digits, separator, optional whitespace, four digits,
word boundary. -/
def phoneRE : RE :=
  reSeqL [.wb, reRepExact reDigit 3, phoneSep, .star reSpace,
    reRepExact reDigit 3, phoneSep, .star reSpace, reRepExact reDigit 4, .wb]

/-- Local-part class of the email pattern: alphanumerics and the
characters dot, underscore, percent, plus, dash. -/
def emailLocalChar (c : Char) : Bool :=
  c.isAlphanum || c == '.' || c == '_' || c == '%' || c == '+' || c == '-'

/-- Domain class of the email pattern: alphanumerics, dot and dash. -/
def emailDomainChar (c : Char) : Bool := c.isAlphanum || c == '.' || c == '-'

/-- Top-level-domain class of the email pattern: the source class lists
A-Z, a literal pipe character, and a-z. -/
def emailTldChar (c : Char) : Bool := c.isAlpha || c == '|'

/-- Email pattern: word boundary, one or more local characters, at sign,
one or more domain characters, dot, two or more TLD characters, word
boundary. -/
def emailRE : RE :=
  reSeqL [.wb, rePlus (.pred emailLocalChar), reChar '@',
    rePlus (.pred emailDomainChar), reChar '.',
    reAtLeast (.pred emailTldChar) 2, .wb]

/-- Patient-name pattern: word boundary, the word patient or pt, one or
more whitespace/colon characters, then two or more capitalized words
(under IGNORECASE: a letter followed by one or more letters, repeated with
whitespace between), word boundary. -/
def nameRE : RE :=
  reSeqL [.wb, .alt (reStr "patient") (reStr "pt"),
    rePlus (.pred (fun c => isSpaceChar c || c == ':')),
    reLetter, rePlus reLetter,
    rePlus (reSeqL [rePlus reSpace, reLetter, rePlus reLetter]),
    .wb]

/-- Street-suffix alternation of the address pattern, in source order. -/
def addressSuffix : RE :=
  .alt (reStr "St") (.alt (reStr "Ave") (.alt (reStr "Blvd") (.alt (reStr "Dr")
    (.alt (reStr "Rd") (.alt (reStr "Ln") (.alt (reStr "Way") (.alt (reStr "Court")
    (.alt (reStr "Circle") (reStr "Place")))))))))

/-- Address pattern: word boundary, one to five digits, whitespace, a
word, whitespace, a street suffix, word boundary. -/
def addressRE : RE :=
  reSeqL [.wb, reRep reDigit 1 5, rePlus reSpace, reLetter, rePlus reLetter,
    rePlus reSpace, addressSuffix, .wb]

/-- `REGEX_PATTERNS` (phi_redactor.py lines 158-178): entity type, pattern
and replacement, in the insertion order of the source dict. -/
def REGEX_PATTERNS : List (String × RE × String) :=
  [("SSN", ssnRE, "[REDACTED_SSN]"),
   ("MRN", mrnRE, "MRN [REDACTED_MRN]"),
   ("DOB", dobRE, "DOB [REDACTED_DOB]"),
   ("PHONE", phoneRE, "[REDACTED_PHONE]"),
   ("EMAIL", emailRE, "[REDACTED_EMAIL]"),
   ("PATIENT_NAME", nameRE, "patient [REDACTED_NAME]"),
   ("ADDRESS", addressRE, "[REDACTED_ADDRESS]")]

/-- `regex_redact` (lines 181-208).  For each pattern in order, the source
runs `re.finditer` over the *current* value of `redacted` (not the
original text), appends one finding per match — with `m.group()`,
`m.start()`, `m.end()` taken from that current string — and then rewrites
`redacted` by `re.sub` with the same pattern, which replaces exactly the
spans `finditer` found. -/
def regex_redact (text : String) : DetectionResult :=
  let step := fun (acc : List Char × List Finding) (p : String × RE × String) =>
    let spans := findIter p.2.1 acc.1
    if spans.isEmpty then acc
    else
      (substSpansAux acc.1 p.2.2.toList 0 spans,
       acc.2 ++ spans.map (fun sp =>
         (⟨p.1, String.mk ((acc.1.drop sp.1).take (sp.2 - sp.1)),
           sp.1, sp.2, 0.85⟩ : Finding)))
  let r := REGEX_PATTERNS.foldl step (text.toList, [])
  { redacted_text := String.mk r.1
    findings := r.2
    phi_detected := decide (0 < r.2.length)
    phi_count := r.2.length
    entity_types_found := (r.2.map (fun f => f.entity_type)).dedup
    engine := "regex_fallback" }

/-! ## Theorems -/

/-- Claim C3: for every processed event, severity is a pure function of
the final risk score given by strict greater-than bucketing: score>70
critical, score>50 high, score>30 medium, score>10 low, otherwise clean;
the boundary values 70, 50, 30, 10 fall into the lower bucket. -/
theorem c3_severity_bucketing :
    (∀ s : Int,
      (severity_of_score s = "critical" ↔ 70 < s) ∧
      (severity_of_score s = "high" ↔ 50 < s ∧ s ≤ 70) ∧
      (severity_of_score s = "medium" ↔ 30 < s ∧ s ≤ 50) ∧
      (severity_of_score s = "low" ↔ 10 < s ∧ s ≤ 30) ∧
      (severity_of_score s = "clean" ↔ s ≤ 10)) ∧
    severity_of_score 70 = "high" ∧ severity_of_score 50 = "medium" ∧
    severity_of_score 30 = "low" ∧ severity_of_score 10 = "clean" := by
  refine ⟨fun s => ?_, by decide, by decide, by decide, by decide⟩
  unfold severity_of_score
  refine ⟨?_, ?_, ?_, ?_, ?_⟩ <;>
    · split_ifs <;> constructor <;> intro h <;>
        first
          | omega
          | (exact absurd h (by decide))
          | rfl

/-- Claim C4: for every body, service name and method, the risk score is
clamped to the range 0..100 (the lower bound holds by the `Nat`
embedding), and, holding the other inputs fixed, is monotonically
non-decreasing in the number of distinct PHI pattern categories, in the
medical-keyword count and in the payload size (hence in the payload-size
bracket). -/
theorem c4_score_clamped_monotone
    (n₁ n₂ m₁ m₂ l₁ l₂ : Nat) (method : String) (hour : Nat)
    (hn : n₁ ≤ n₂) (hm : m₁ ≤ m₂) (hl : l₁ ≤ l₂) :
    score_risk n₁ m₁ l₁ method hour ≤ 100 ∧
    score_risk n₁ m₁ l₁ method hour ≤ score_risk n₂ m₂ l₂ method hour := by
  have hphi : phiBoost n₁ ≤ phiBoost n₂ := by
    unfold phiBoost; split_ifs <;> omega
  have hmed : medBoost m₁ ≤ medBoost m₂ := by
    unfold medBoost; split_ifs <;> omega
  have hsize : sizeBoost l₁ ≤ sizeBoost l₂ := by
    unfold sizeBoost; split_ifs <;> omega
  unfold score_risk
  omega

/-- Witness for C4 at concrete inputs. -/
theorem c4_witness :
    score_risk 1 2 100 "POST" 12 ≤ 100 ∧
    score_risk 1 2 100 "POST" 12 ≤ score_risk 2 4 5000 "POST" 12 :=
  c4_score_clamped_monotone 1 2 2 4 100 5000 "POST" 12
    (by decide) (by decide) (by decide)

/-- Any score strictly above 10 lands in a bucket other than clean. -/
theorem severity_above_ten (s : Int) (h : 10 < s) :
    severity_of_score s ≠ "clean" ∧
    severity_of_score s ∈ ["low", "medium", "high", "critical"] := by
  unfold severity_of_score
  split_ifs <;> first | (exact ⟨by decide, by decide⟩) | omega

/-- Claim C10: the unconditional base term makes every `score_risk` result
at least 15 (also after the Presidio entity boost of
`ShadowGuard.request`), so the `_post_event` severity of a live scored
request is never clean and is always at least low. -/
theorem c10_score_floor (nPhi medCount bodyLen : Nat) (method : String)
    (hour nEntityTypes : Nat) :
    15 ≤ score_risk nPhi medCount bodyLen method hour ∧
    15 ≤ boost_score (score_risk nPhi medCount bodyLen method hour) nEntityTypes ∧
    severity_of_score (score_risk nPhi medCount bodyLen method hour) ≠ "clean" ∧
    severity_of_score (score_risk nPhi medCount bodyLen method hour) ∈
      ["low", "medium", "high", "critical"] ∧
    severity_of_score
      (boost_score (score_risk nPhi medCount bodyLen method hour) nEntityTypes) ≠
      "clean" := by
  have h15 : 15 ≤ score_risk nPhi medCount bodyLen method hour := by
    unfold score_risk; omega
  have hb : 15 ≤ boost_score (score_risk nPhi medCount bodyLen method hour)
      nEntityTypes := by
    unfold boost_score; omega
  have h1 := severity_above_ten (score_risk nPhi medCount bodyLen method hour)
    (by omega)
  have h2 := severity_above_ten
    (boost_score (score_risk nPhi medCount bodyLen method hour) nEntityTypes)
    (by omega)
  exact ⟨h15, hb, h1.1, h1.2, h2.1⟩

/-- Claim C7 counterexample: on a body repeating one keyword, the count of
the code (3 distinct keywords present) differs from the occurrence count
of the claim (5), and the medical score term consequently differs
(9 vs 15). -/
theorem c7_occurrences_counterexample :
    count_medical_keywords "patient patient patient surgery MRI" = 3 ∧
    claimMedicalOccurrenceCount "patient patient patient surgery MRI" = 5 ∧
    medBoost (count_medical_keywords "patient patient patient surgery MRI") = 9 ∧
    medBoost (claimMedicalOccurrenceCount "patient patient patient surgery MRI") = 15 ∧
    medBoost (count_medical_keywords "patient patient patient surgery MRI") ≠
      medBoost (claimMedicalOccurrenceCount "patient patient patient surgery MRI") := by
  decide

/-- Counting with predicates that agree on every element gives equal
counts. -/
theorem countP_congr_local {α : Type} (l : List α) (p q : α → Bool)
    (h : ∀ a ∈ l, p a = q a) : l.countP p = l.countP q := by
  induction l with
  | nil => rfl
  | cons a l ih =>
    have ha : p a = q a := h a (by simp)
    have ih2 := ih (fun b hb => h b (by simp [hb]))
    simp [List.countP_cons, ha, ih2]

/-- Claim C7 (amended): the medical-keyword term depends only on *which*
keywords of the fixed vocabulary occur in the body — each present keyword
is counted once, however often it repeats — and the boost added by
`score_risk` is `min(count*3, 15)` when that count is at least 3, else
0. -/
theorem c7_distinct_keyword_term (b₁ b₂ : String)
    (h : ∀ kw ∈ MEDICAL_KEYWORDS,
      strContains (lowerStr b₁) (lowerStr kw) =
        strContains (lowerStr b₂) (lowerStr kw)) :
    count_medical_keywords b₁ = count_medical_keywords b₂ ∧
    (∀ c : Nat, (3 ≤ c → medBoost c = min (c * 3) 15) ∧
      (c < 3 → medBoost c = 0)) := by
  constructor
  · unfold count_medical_keywords
    exact countP_congr_local MEDICAL_KEYWORDS _ _ h
  · intro c
    constructor <;> intro hc <;> unfold medBoost <;> split_ifs <;>
      first | rfl | omega

/-- Witness for the amended C7: repeating a keyword does not change the
count. -/
theorem c7_witness :
    count_medical_keywords "patient" = count_medical_keywords "patient patient" ∧
    (∀ c : Nat, (3 ≤ c → medBoost c = min (c * 3) 15) ∧
      (c < 3 → medBoost c = 0)) :=
  c7_distinct_keyword_term "patient" "patient patient" (by decide)

/-- Claim C8: if the LLM request fails (transport error or timeout) or its
response cannot be parsed as a JSON list, the strategy returns, without
raising, a result with no findings, `phi_detected = false`,
`phi_count = 0` and `redacted_text` equal to the input text. -/
theorem c8_llm_failure_empty_result (t : String) :
    (ollama_redact t .transportFail = emptyOllamaResult t) ∧
    (ollama_redact t .badJson = emptyOllamaResult t) ∧
    (ollama_redact t .notAList).findings = [] ∧
    (ollama_redact t .notAList).phi_detected = false ∧
    (ollama_redact t .notAList).phi_count = 0 ∧
    (ollama_redact t .notAList).redacted_text = t := by
  refine ⟨rfl, rfl, rfl, rfl, rfl, rfl⟩

/-- Claim C2 failing evaluation (LLM strategy): on "Bob met Bob" with one
PERSON entity "Bob", the only finding spans positions 0..3, yet the second
occurrence of "Bob" at positions 8..11 — outside every finding span — is
also replaced, because line 338 of the source substitutes by literal-text
global replacement (`redacted.replace(ent_text, replacement)`). -/
theorem c2_llm_global_replace :
    (ollama_redact "Bob met Bob" (.entities [⟨"PERSON", "Bob"⟩])).findings.map
        (fun f => (f.entity_type, f.text, f.start, f.stop)) =
      [("PERSON", "Bob", 0, 3)] ∧
    sliceStr "Bob met Bob" 8 11 = "Bob" ∧
    (ollama_redact "Bob met Bob" (.entities [⟨"PERSON", "Bob"⟩])).redacted_text =
      "[REDACTED_NAME] met [REDACTED_NAME]" ∧
    (ollama_redact "Bob met Bob" (.entities [⟨"PERSON", "Bob"⟩])).redacted_text ≠
      "[REDACTED_NAME] met Bob" := by
  decide

set_option maxRecDepth 8000 in
/-- Claim C6 evaluation: success updates the persisted record to queued
with the call id; `URLError` updates it to failed with the truncated
message (the 500-character bound shown on a 600-character message); but an
`HTTPError` — a protocol failure, e.g. HTTP 401 — leaves the record at
initiated with no `error_message`, because the `HTTPError` handler of the
source only logs. -/
theorem c6_call_outcome_updates :
    make_vapi_call [] ⟨"critical", 95, "10.0.0.1"⟩ 0 (.success "call-1") =
      [⟨0, "10.0.0.1", 0, "queued", some "call-1", none⟩] ∧
    make_vapi_call [] ⟨"critical", 95, "10.0.0.1"⟩ 0
        (.urlError "connection refused") =
      [⟨0, "10.0.0.1", 0, "failed", none, some "connection refused"⟩] ∧
    (make_vapi_call [] ⟨"critical", 95, "10.0.0.1"⟩ 0
        (.urlError (String.mk (List.replicate 600 'x')))).map
      (fun r => (r.error_message.getD "").length) = [500] ∧
    make_vapi_call [] ⟨"critical", 95, "10.0.0.1"⟩ 0
        (.httpError 401 "unauthorized") =
      [⟨0, "10.0.0.1", 0, "initiated", none, none⟩] ∧
    (make_vapi_call [] ⟨"critical", 95, "10.0.0.1"⟩ 0
        (.httpError 401 "unauthorized")).map (fun r => r.status) ≠
      ["failed"] := by
  decide

/-- Updating by an id that occurs in no element leaves the list
unchanged. -/
theorem map_update_skip (s : List CallRec) (n : Nat)
    (f : CallRec → CallRec) (h : ∀ r ∈ s, r.id ≠ n) :
    s.map (fun r => if r.id == n then f r else r) = s := by
  induction s with
  | nil => rfl
  | cons a l ih =>
    have ha : ¬((a.id == n) = true) := by
      simp only [beq_iff_eq]
      exact h a (by simp)
    simp only [List.map_cons, if_neg ha]
    rw [ih (fun r hr => h r (by simp [hr]))]

/-- Claim C5: two eligible events (severity critical/high, score at least
70, provider configured) from the same source, evaluated sequentially
within one cooldown window (default 300 s), starting from a store with
fresh ids and no live cooldown for that source: exactly the first is
dispatched and produces a call record (status queued once the call attempt
succeeds); the second is suppressed, placing no call and creating no
record. -/
theorem c5_cooldown_exclusivity (cfg : EscConfig) (e₁ e₂ : EscEvent)
    (t₁ t₂ : Int) (s₀ : List CallRec) (cid : String) (outcome₂ : CallOutcome)
    (hconf : is_configured cfg = true)
    (he₁ : eligibleEvent e₁ = true) (he₂ : eligibleEvent e₂ = true)
    (hip : e₂.source_ip = e₁.source_ip)
    (hcd : cfg.cooldownSeconds = 300)
    (hwin : t₂ - t₁ < 300)
    (hids : ∀ r ∈ s₀, r.id < s₀.length)
    (hfresh : check_cooldown 300 s₀ e₁.source_ip t₁ = false) :
    process_event cfg e₁ t₁ (.success cid) s₀ =
      (.dispatched,
        s₀ ++ [⟨s₀.length, e₁.source_ip, t₁, "queued", some cid, none⟩]) ∧
    process_event cfg e₂ t₂ outcome₂
        (s₀ ++ [⟨s₀.length, e₁.source_ip, t₁, "queued", some cid, none⟩]) =
      (.suppressed,
        s₀ ++ [⟨s₀.length, e₁.source_ip, t₁, "queued", some cid, none⟩]) := by
  constructor
  · unfold process_event
    rw [hconf, he₁, hcd, hfresh]
    simp only [Bool.not_true, Bool.false_eq_true, if_false, ite_false]
    unfold make_vapi_call
    simp only [List.map_append, List.map_cons, List.map_nil, beq_self_eq_true,
      if_true, ite_true]
    rw [map_update_skip s₀ s₀.length _ (fun r hr => Nat.ne_of_lt (hids r hr))]
  · unfold process_event
    rw [hconf, he₂, hcd]
    have hcool : check_cooldown 300
        (s₀ ++ [⟨s₀.length, e₁.source_ip, t₁, "queued", some cid, none⟩])
        e₂.source_ip t₂ = true := by
      unfold check_cooldown
      rw [List.any_append]
      apply Bool.or_eq_true_iff.mpr
      right
      simp [hip]
      omega
    rw [hcool]
    simp

/-- Witness for C5 at a concrete configuration, two concrete events from
the same source 100 seconds apart, and an empty initial store. -/
theorem c5_witness :
    process_event ⟨true, "key", "pn", "as", "+15550100", 300⟩
        ⟨"critical", 95, "10.0.0.1"⟩ 0 (.success "c-1") [] =
      (.dispatched, [⟨0, "10.0.0.1", 0, "queued", some "c-1", none⟩]) ∧
    process_event ⟨true, "key", "pn", "as", "+15550100", 300⟩
        ⟨"high", 80, "10.0.0.1"⟩ 100 (.success "c-2")
        [⟨0, "10.0.0.1", 0, "queued", some "c-1", none⟩] =
      (.suppressed, [⟨0, "10.0.0.1", 0, "queued", some "c-1", none⟩]) :=
  c5_cooldown_exclusivity ⟨true, "key", "pn", "as", "+15550100", 300⟩
    ⟨"critical", 95, "10.0.0.1"⟩ ⟨"high", 80, "10.0.0.1"⟩ 0 100 [] "c-1"
    (.success "c-2") (by decide) (by decide) (by decide) rfl rfl
    (by decide) (by decide) (by decide)

/-- Claim C9 evaluation: a failed parse, an unrecognized shape and a
non-container body all pass the raw text through, and a well-formed flat
role/content message list yields the extracted content; but a parseable
body whose `messages` list holds a non-dict element (here the number 5)
makes the normalizer raise `AttributeError` — `m.get("content")` is
evaluated on an int, and the except clause catches only
`json.JSONDecodeError` and `TypeError`. -/
theorem c9_normalizer_attribute_error :
    normalize_body "not json" none = .ok (.jstr "not json") ∧
    normalize_body "plain"
        (some (.jobj [("foo", .jstr "bar")])) = .ok (.jstr "plain") ∧
    normalize_body "body1"
        (some (.jobj [("messages",
          .jarr [.jobj [("role", .jstr "user"), ("content", .jstr "hi")]])])) =
      .ok (.jstr "hi") ∧
    normalize_body "body2" (some (.jnum 7)) = .ok (.jstr "body2") ∧
    normalize_body "body3"
        (some (.jobj [("messages", .jarr [.jnum 5])])) =
      .error .attributeError := by
  refine ⟨rfl, rfl, rfl, rfl, rfl⟩

set_option maxRecDepth 100000 in
/-- Claim C1 failing evaluation (regex fallback): on the input
"123-45-6789 a@b.co" (length 18), the SSN finding is correct, but the
EMAIL finding carries span 15..21 — offsets into the partially redacted
string "[REDACTED_SSN] a@b.co" — so its stop offset exceeds the input
length and the input slice at its span differs from its text field: the
source runs each successive `re.finditer` over the mutated `redacted`
string instead of the original text. -/
theorem c1_regex_offsets_overflow :
    (regex_redact "123-45-6789 a@b.co").findings.map
        (fun f => (f.entity_type, f.text, f.start, f.stop)) =
      [("SSN", "123-45-6789", 0, 11), ("EMAIL", "a@b.co", 15, 21)] ∧
    (regex_redact "123-45-6789 a@b.co").redacted_text =
      "[REDACTED_SSN] [REDACTED_EMAIL]" ∧
    ("123-45-6789 a@b.co" : String).length = 18 ∧
    ¬ (∀ f ∈ (regex_redact "123-45-6789 a@b.co").findings,
        f.stop ≤ ("123-45-6789 a@b.co" : String).length ∧
        sliceStr "123-45-6789 a@b.co" f.start f.stop = f.text) := by
  decide

end ShadowGuard
